import Mathlib

/-!
Shallow embedding of `gridgopher/sheet_collector.py` (classes `SheetCollector`,
`Sheet`, `Region`) and proofs about its extraction pipeline.

Modelling conventions:
* A spreadsheet cell value is a `String` (the Sheets API returns strings).
* The remote Sheets API (`self.api`, an authenticated `spreadsheets()` object)
  is modelled as a pure function `Fetcher`: given file id, sheet name, start
  and end cell, it returns the 2D list of values that
  `Sheet.execute_sheets_call` would return (`.get("values", [])`, so an empty
  range yields `[]`).
* Python dictionaries keyed by strings are modelled as association lists with
  Python assignment semantics (`dictInsert`: overwrite in place, else append).
* Python exceptions are modelled with `Except` / an explicit error component:
  a method that mutates `self` and may raise returns the mutated state
  together with `Option SheetError` (the state reached when the exception
  propagates is kept, as in Python).
* Parsed YAML configuration dictionaries are modelled by the structures
  `Config`, `SubSheet`, `RegionDescriptor`; the optional `headers` key is an
  `Option`, `none` meaning the key is absent (so `region["headers"]` raises
  `KeyError`).
-/

namespace GridGopher

/-- A single cell value as returned by the Sheets API. -/
abbrev Cell := String

/-- The authenticated Sheets API: `(file_id, sheet_name, start, end) ↦ values`.
Models `api.values().get(spreadsheetId=…, range=…).execute().get("values", [])`. -/
abbrev Fetcher := String → String → String → String → List (List Cell)

/-- The errors the embedded code can raise.  Each constructor records the
concrete Python exception of `sheet_collector.py` it models. -/
inductive SheetError where
  /-- Python `IndexError` raised by `data[0]` in `Sheet.to_dataframe` when
  `data` is empty (the failure the spec names `EmptyRegionError`). -/
  | indexError : SheetError
  /-- Python `Exception("No passed table headers")` raised in
  `Sheet.to_dataframe` (the failure the spec names `MissingHeadersError`). -/
  | noPassedTableHeaders : SheetError
  /-- Python `KeyError` raised by a dictionary access `d[key]` on an absent
  key, e.g. `region["headers"]` in `Sheet.collect_regions`. -/
  | keyError : String → SheetError
  /-- Python `Exception("ERROR: Collector was not authenticated")` raised by
  `SheetCollector.collect_files`. -/
  | notAuthenticated : SheetError
deriving Repr, DecidableEq

/-- The pandas DataFrame built by `Sheet.to_dataframe`: a list of column
names and the raw data rows. -/
structure DataFrame where
  columns : List String
  rows : List (List Cell)
deriving Repr, DecidableEq

/-- One region descriptor of the YAML configuration
(`{name, start, end, contains_headers, headers?}`).  `headers = none` models
an absent `headers` key. -/
structure RegionDescriptor where
  name : String
  start : String
  end_ : String
  contains_headers : Bool
  headers : Option (List String)
deriving Repr, DecidableEq

/-- One entry of the configuration's `sheets` list (`{name, regions}`). -/
structure SubSheet where
  name : String
  regions : List RegionDescriptor
deriving Repr, DecidableEq

/-- A parsed YAML source configuration (`{source_id, sheets}`). -/
structure Config where
  source_id : String
  sheets : List SubSheet
deriving Repr, DecidableEq

/-- The `Region` class: metadata plus the extracted DataFrame.  Fields are
those set by `Region.__init__`. -/
structure Region where
  region_name : String
  parent_sheet_name : String
  full_name : String
  start_range : String
  end_range : String
  data : DataFrame
deriving Repr, DecidableEq

/-- Python dict assignment `m[k] = v`: overwrite the binding in place if the
key is present, otherwise append the new binding. -/
def dictInsert {α : Type} (m : List (String × α)) (k : String) (v : α) :
    List (String × α) :=
  match m with
  | [] => [(k, v)]
  | (k0, v0) :: rest =>
      if k0 = k then (k, v) :: rest else (k0, v0) :: dictInsert rest k v

/-- Python dict read `m.get(k)`: the value bound to `k`, if any. -/
def dictGet {α : Type} (m : List (String × α)) (k : String) : Option α :=
  match m with
  | [] => none
  | (k0, v0) :: rest => if k0 = k then some v0 else dictGet rest k

/-- The `self.regions` dictionary of a `Sheet`. -/
abbrev RegionMap := List (String × Region)

/-- The `Region.__init__` constructor: stores the arguments and derives
`full_name = f"{parent_sheet_name}_{region_name}"`. -/
def Region.init (region_name parent_sheet_name start_range end_range : String)
    (data : DataFrame) : Region :=
  { region_name := region_name
    parent_sheet_name := parent_sheet_name
    full_name := parent_sheet_name ++ "_" ++ region_name
    start_range := start_range
    end_range := end_range
    data := data }

/-- `Sheet.execute_sheets_call`: delegates to the API and returns the values
in the requested range (empty list when the range holds no data). -/
def execute_sheets_call (api : Fetcher)
    (file_id sheet_name start_range end_range : String) : List (List Cell) :=
  api file_id sheet_name start_range end_range

/-- `Sheet.to_dataframe`: with `headers_in_data` it evaluates
`pd.DataFrame(data[1:], columns=data[0])` — `data[0]` raises `IndexError` on
empty data; otherwise it raises `Exception("No passed table headers")` when
`headers` is falsy (`None` or `[]`) and else evaluates
`pd.DataFrame(data, columns=headers)`. -/
def to_dataframe (data : List (List Cell)) (headers_in_data : Bool)
    (headers : Option (List String)) : Except SheetError DataFrame :=
  if headers_in_data then
    match data with
    | [] => .error .indexError
    | first :: rest => .ok { columns := first, rows := rest }
  else
    match headers with
    | none => .error .noPassedTableHeaders
    | some [] => .error .noPassedTableHeaders
    | some hs => .ok { columns := hs, rows := data }

/-- The body of `Sheet.collect_regions` for one region descriptor: fetch the
range, dispatch on `contains_headers` (reading `region["headers"]` raises
`KeyError` when the key is absent), and build the `Region` object. -/
def processRegion (api : Fetcher) (source_id sheet_name : String)
    (rd : RegionDescriptor) : Except SheetError Region :=
  let region_data :=
    execute_sheets_call api source_id sheet_name rd.start rd.end_
  let data :=
    if rd.contains_headers then
      to_dataframe region_data true none
    else
      match rd.headers with
      | none => .error (.keyError "headers")
      | some hs => to_dataframe region_data false (some hs)
  data.map (fun d => Region.init rd.name sheet_name rd.start rd.end_ d)

/-- The inner loop of `Sheet.collect_regions` over the `regions` list of one
subsheet: each built region is stored under `region["name"]`; an exception
stops the loop, keeping the regions stored so far. -/
def collectRegionsList (api : Fetcher) (source_id sheet_name : String)
    (rds : List RegionDescriptor) (acc : RegionMap) :
    RegionMap × Option SheetError :=
  match rds with
  | [] => (acc, none)
  | rd :: rest =>
      match processRegion api source_id sheet_name rd with
      | .error e => (acc, some e)
      | .ok r => collectRegionsList api source_id sheet_name rest
          (dictInsert acc rd.name r)

/-- The outer loop of `Sheet.collect_regions` over `config["sheets"]`. -/
def collectSheets (api : Fetcher) (source_id : String) (shs : List SubSheet)
    (acc : RegionMap) : RegionMap × Option SheetError :=
  match shs with
  | [] => (acc, none)
  | sh :: rest =>
      match collectRegionsList api source_id sh.name sh.regions acc with
      | (acc2, none) => collectSheets api source_id rest acc2
      | (acc2, some e) => (acc2, some e)

/-- `Sheet.collect_regions`: iterate the configuration and request data
through the API, returning the updated `self.regions` together with the
exception that propagated, if any. -/
def collect_regions (api : Fetcher) (config : Config) (regions : RegionMap) :
    RegionMap × Option SheetError :=
  collectSheets api config.source_id config.sheets regions

/-- `Sheet.check_config_schema`: the source only asserts
`type(config) == dict` (always true for a parsed mapping, which `Config`
models) and returns `True`; the schema check itself is a stub
(`TODO: implement me`). -/
def check_config_schema (_config : Config) : Bool :=
  true

/-- The `Sheet` class: configuration plus the `regions` dictionary. -/
structure Sheet where
  config : Config
  regions : RegionMap
deriving Repr, DecidableEq

/-- `Sheet.__init__`: stores the config, runs `check_config_schema` (which
never raises on a parsed mapping), and initialises `self.regions = {}`. -/
def Sheet.init (config : Config) : Sheet :=
  { config := config, regions := [] }

/-- `Sheet.get_region`: lookup in `self.regions` (raises `KeyError` when
absent). -/
def Sheet.get_region (s : Sheet) (region_name : String) :
    Except SheetError Region :=
  match dictGet s.regions region_name with
  | none => .error (.keyError region_name)
  | some r => .ok r

/-- The `self.sheets_data` dictionary of a `SheetCollector`. -/
abbrev SheetsData := List (String × Sheet)

/-- The per-file loop of `SheetCollector.collect_files`: each file (given as
its stem and its parsed YAML mapping) yields a fresh `Sheet` whose regions
are collected; only then is the sheet stored under the file stem.  An
exception propagates, keeping the entries stored by earlier iterations. -/
def collectFilesGo (api : Fetcher) (files : List (String × Config))
    (sheets_data : SheetsData) : SheetsData × Option SheetError :=
  match files with
  | [] => (sheets_data, none)
  | (stem, cfg) :: rest =>
      let sheet_obj := Sheet.init cfg
      match collect_regions api cfg sheet_obj.regions with
      | (_, some e) => (sheets_data, some e)
      | (regs, none) =>
          collectFilesGo api rest
            (dictInsert sheets_data stem { sheet_obj with regions := regs })

/-- `SheetCollector.collect_files`: raises when the collector was not
authenticated (`self.sheets` falsy), otherwise runs the per-file loop over
the discovered configuration files. -/
def collect_files (api : Option Fetcher) (files : List (String × Config))
    (sheets_data : SheetsData) : SheetsData × Option SheetError :=
  match api with
  | none => (sheets_data, some .notAuthenticated)
  | some f => collectFilesGo f files sheets_data

/-- A JSON value as produced by `json.dump` (only strings and objects occur
in a serialized region). -/
inductive Json where
  | str : String → Json
  | obj : List (String × Json) → Json
deriving Repr

/-- Field lookup in a JSON object, as a reparser would perform it. -/
def Json.getField : Json → String → Option Json
  | .str _, _ => none
  | .obj fields, k => dictGet fields k

/-- `pandas.DataFrame.to_dict("index")`: a mapping from row index to the
row's column→value mapping. -/
def DataFrame.to_dict (df : DataFrame) : List (Nat × List (String × Cell)) :=
  df.rows.enum.map (fun p => (p.1, df.columns.zip p.2))

/-- Observer for stating row/column properties: the column→value pairing of
row `i` of a DataFrame (what `df.to_dict("index")[i]` exposes). -/
def DataFrame.rowRecord (df : DataFrame) (i : Nat) : List (String × Cell) :=
  df.columns.zip (df.rows.getD i [])

/-- `Region.region_to_json`: the name of the file written under the target
directory (`f"{self.full_name}.json"`) and the JSON document dumped into it.
Note `json.dump` renders the integer row indices of `to_dict("index")` as
strings. -/
def region_to_json (r : Region) : String × Json :=
  (r.full_name ++ ".json",
   .obj
     [("region_name", .str r.region_name),
      ("parent_name", .str r.parent_sheet_name),
      ("full_name", .str r.full_name),
      ("start_range", .str r.start_range),
      ("end_range", .str r.end_range),
      ("data", .obj (r.data.to_dict.map
        (fun p => (toString p.1,
          Json.obj (p.2.map (fun q => (q.1, Json.str q.2)))))))])

/-! ## General lemmas about the embedded operations -/

theorem dictGet_dictInsert {α : Type} (m : List (String × α)) (k k2 : String)
    (v : α) :
    dictGet (dictInsert m k v) k2 = if k = k2 then some v else dictGet m k2 := by
  induction m with
  | nil => simp [dictInsert, dictGet]
  | cons p rest ih =>
      obtain ⟨k0, v0⟩ := p
      by_cases h0 : k0 = k
      · subst h0
        by_cases h2 : k0 = k2 <;> simp [dictInsert, dictGet, h2]
      · by_cases h2 : k0 = k2
        · subst h2
          have hk : ¬k = k0 := fun h => h0 h.symm
          simp [dictInsert, dictGet, h0, hk]
        · simp [dictInsert, dictGet, h0, h2, ih]

theorem dictGet_dictInsert_isSome {α : Type} (m : List (String × α))
    (k k2 : String) (v : α) (h : (dictGet m k2).isSome) :
    (dictGet (dictInsert m k v) k2).isSome := by
  rw [dictGet_dictInsert]
  by_cases hk : k = k2 <;> simp [hk, h]

theorem exceptMap_eq_ok {ε α β : Type} (f : α → β) (x : Except ε α) (b : β)
    (h : Except.map f x = Except.ok b) : ∃ a, x = Except.ok a ∧ b = f a := by
  cases x with
  | error e => simp [Except.map] at h
  | ok a =>
      refine ⟨a, rfl, ?_⟩
      simp [Except.map] at h
      exact h.symm

theorem processRegion_ok_fields (api : Fetcher) (source_id sheet_name : String)
    (rd : RegionDescriptor) (r : Region)
    (h : processRegion api source_id sheet_name rd = .ok r) :
    r.region_name = rd.name ∧ r.parent_sheet_name = sheet_name ∧
      r.full_name = sheet_name ++ "_" ++ rd.name ∧
      r.start_range = rd.start ∧ r.end_range = rd.end_ := by
  unfold processRegion at h
  obtain ⟨df, hx, hb⟩ := exceptMap_eq_ok _ _ _ h
  subst hb
  simp [Region.init]

theorem collectRegionsList_append (api : Fetcher) (source_id sheet_name : String)
    (l1 l2 : List RegionDescriptor) (acc : RegionMap)
    (h : (collectRegionsList api source_id sheet_name l1 acc).2 = none) :
    collectRegionsList api source_id sheet_name (l1 ++ l2) acc
      = collectRegionsList api source_id sheet_name l2
          (collectRegionsList api source_id sheet_name l1 acc).1 := by
  induction l1 generalizing acc with
  | nil => simp [collectRegionsList]
  | cons rd rest ih =>
      cases hpr : processRegion api source_id sheet_name rd with
      | error e =>
          rw [collectRegionsList] at h
          simp [hpr] at h
      | ok r =>
          rw [collectRegionsList] at h
          simp only [hpr] at h
          simp only [List.cons_append, collectRegionsList, hpr]
          exact ih _ h

/-! ## Claim theorems -/

/-- C1: the claim says constructing a `Source` from a shape-violating
descriptor (here: `contains_headers = false` with the `headers` key absent)
raises `ConfigSchemaError` at construction time.  The code's
`check_config_schema` is a stub that accepts any mapping, so `Sheet.__init__`
returns normally on exactly the descriptor the spec's scenario uses. -/
theorem check_config_schema_accepts_invalid_descriptor :
    check_config_schema
        ⟨"S1", [⟨"Sheet1", [⟨"R1", "A1", "B2", false, none⟩]⟩]⟩ = true ∧
      Sheet.init ⟨"S1", [⟨"Sheet1", [⟨"R1", "A1", "B2", false, none⟩]⟩]⟩
        = ⟨⟨"S1", [⟨"Sheet1", [⟨"R1", "A1", "B2", false, none⟩]⟩]⟩, []⟩ :=
  ⟨rfl, rfl⟩

/-- C2: a region descriptor with `contains_headers = true` whose fetch
returns zero rows makes `collect_regions` raise (the `IndexError` from
`data[0]`, the failure the spec names `EmptyRegionError`), and no `Region`
gets registered under that region's name. -/
theorem collect_regions_empty_fetch_raises (api : Fetcher)
    (source_id sheet_name : String) (rd : RegionDescriptor)
    (rest : List RegionDescriptor) (acc : RegionMap)
    (hch : rd.contains_headers = true)
    (hfetch : api source_id sheet_name rd.start rd.end_ = [])
    (hacc : dictGet acc rd.name = none) :
    collectRegionsList api source_id sheet_name (rd :: rest) acc
        = (acc, some .indexError) ∧
      dictGet (collectRegionsList api source_id sheet_name (rd :: rest) acc).1
          rd.name = none := by
  have hpr : processRegion api source_id sheet_name rd = .error .indexError := by
    simp [processRegion, execute_sheets_call, hfetch, hch, to_dataframe,
      Except.map]
  refine ⟨?_, ?_⟩ <;> simp [collectRegionsList, hpr, hacc]

/-- Witness for C2 at the concrete scenario input. -/
theorem collect_regions_empty_fetch_raises_witness :
    collectRegionsList (fun _ _ _ _ => []) "S1" "Sheet1"
        [{ name := "R1", start := "A1", end_ := "B2",
           contains_headers := true, headers := none }] []
      = ([], some .indexError) :=
  (collect_regions_empty_fetch_raises (fun _ _ _ _ => []) "S1" "Sheet1"
    { name := "R1", start := "A1", end_ := "B2",
      contains_headers := true, headers := none } [] [] rfl rfl rfl).1

/-- C4: with `contains_headers = true` and a non-empty fetch result, the
built Region's table has the first fetched row as column names, one row
fewer than the fetch, and row `i` pairs column `j`'s name with the
`(i+1)`-th fetched row's `j`-th cell. -/
theorem processRegion_headers_in_data (api : Fetcher)
    (source_id sheet_name : String) (rd : RegionDescriptor)
    (first : List Cell) (rest : List (List Cell))
    (hch : rd.contains_headers = true)
    (hfetch : api source_id sheet_name rd.start rd.end_ = first :: rest)
    (hrect : ∀ row ∈ rest, row.length = first.length) :
    processRegion api source_id sheet_name rd
        = .ok (Region.init rd.name sheet_name rd.start rd.end_
            { columns := first, rows := rest }) ∧
      (DataFrame.mk first rest).columns = first ∧
      (DataFrame.mk first rest).rows.length = (first :: rest).length - 1 ∧
      ∀ (i j : Nat) (row : List Cell) (colname : String) (cellval : Cell),
        rest[i]? = some row →
        first[j]? = some colname → row[j]? = some cellval →
        ((DataFrame.mk first rest).rowRecord i)[j]? = some (colname, cellval) := by
  refine ⟨?_, rfl, rfl, ?_⟩
  · simp [processRegion, execute_sheets_call, hfetch, hch, to_dataframe,
      Except.map]
  · intro i j row colname cellval hrow hcol hcell
    have hgd : rest.getD i [] = row := by
      rw [List.getD_eq_getElem?_getD, hrow]
      rfl
    simp only [DataFrame.rowRecord, hgd]
    rw [List.getElem?_zip_eq_some]
    exact ⟨hcol, hcell⟩

/-- Witness for C4 at the spec's scenario input
(`fetch = [[a,b],[1,2],[3,4]]`). -/
theorem processRegion_headers_in_data_witness :
    processRegion (fun _ _ _ _ => [["a", "b"], ["1", "2"], ["3", "4"]])
        "S1" "Sheet1"
        { name := "R1", start := "A1", end_ := "B2",
          contains_headers := true, headers := none }
      = .ok (Region.init "R1" "Sheet1" "A1" "B2"
          { columns := ["a", "b"], rows := [["1", "2"], ["3", "4"]] }) :=
  (processRegion_headers_in_data
    (fun _ _ _ _ => [["a", "b"], ["1", "2"], ["3", "4"]]) "S1" "Sheet1"
    { name := "R1", start := "A1", end_ := "B2",
      contains_headers := true, headers := none }
    ["a", "b"] [["1", "2"], ["3", "4"]] rfl rfl (by decide)).1

/-- C5: with `contains_headers = false` and a non-empty `headers` list, the
built Region's table has the descriptor's `headers` as column names, keeps
every fetched row as data (no row consumed as a header), and row `i` pairs
header `j` with the `i`-th fetched row's `j`-th cell. -/
theorem processRegion_external_headers (api : Fetcher)
    (source_id sheet_name : String) (rd : RegionDescriptor)
    (hs : List String) (data : List (List Cell))
    (hch : rd.contains_headers = false)
    (hh : rd.headers = some hs) (hne : hs ≠ [])
    (hfetch : api source_id sheet_name rd.start rd.end_ = data)
    (hrect : ∀ row ∈ data, row.length = hs.length) :
    processRegion api source_id sheet_name rd
        = .ok (Region.init rd.name sheet_name rd.start rd.end_
            { columns := hs, rows := data }) ∧
      (DataFrame.mk hs data).columns = hs ∧
      (DataFrame.mk hs data).rows.length = data.length ∧
      (DataFrame.mk hs data).rows = data ∧
      ∀ (i j : Nat) (row : List Cell) (colname : String) (cellval : Cell),
        data[i]? = some row →
        hs[j]? = some colname → row[j]? = some cellval →
        ((DataFrame.mk hs data).rowRecord i)[j]? = some (colname, cellval) := by
  refine ⟨?_, rfl, rfl, rfl, ?_⟩
  · obtain ⟨h0, hs2⟩ : ∃ h0 hs2, hs = h0 :: hs2 := by
      cases hs with
      | nil => exact absurd rfl hne
      | cons a l => exact ⟨a, l, rfl⟩
    obtain ⟨hs2, rfl⟩ := hs2
    simp [processRegion, execute_sheets_call, hfetch, hch, hh, to_dataframe,
      Except.map]
  · intro i j row colname cellval hrow hcol hcell
    have hgd : data.getD i [] = row := by
      rw [List.getD_eq_getElem?_getD, hrow]
      rfl
    simp only [DataFrame.rowRecord, hgd]
    rw [List.getElem?_zip_eq_some]
    exact ⟨hcol, hcell⟩

/-- Witness for C5 at the spec's scenario input
(`headers = [x,y]`, `fetch = [[1,2],[3,4]]`). -/
theorem processRegion_external_headers_witness :
    processRegion (fun _ _ _ _ => [["1", "2"], ["3", "4"]]) "S1" "Sheet1"
        { name := "R1", start := "A1", end_ := "B2",
          contains_headers := false, headers := some ["x", "y"] }
      = .ok (Region.init "R1" "Sheet1" "A1" "B2"
          { columns := ["x", "y"], rows := [["1", "2"], ["3", "4"]] }) :=
  (processRegion_external_headers
    (fun _ _ _ _ => [["1", "2"], ["3", "4"]]) "S1" "Sheet1"
    { name := "R1", start := "A1", end_ := "B2",
      contains_headers := false, headers := some ["x", "y"] }
    ["x", "y"] [["1", "2"], ["3", "4"]] rfl rfl (by decide) rfl
    (by decide)).1

/-- C6: if a region's fetch or transform fails, `collect_regions` stops
processing the remaining regions, surfaces the error, and the region map is
exactly the one built from the regions processed before the failure. -/
theorem collect_regions_partial_failure (api : Fetcher)
    (source_id sheet_name : String) (pre post : List RegionDescriptor)
    (rd : RegionDescriptor) (acc : RegionMap) (e : SheetError)
    (hpre : (collectRegionsList api source_id sheet_name pre acc).2 = none)
    (hfail : processRegion api source_id sheet_name rd = .error e) :
    collect_regions api ⟨source_id, [⟨sheet_name, pre ++ rd :: post⟩]⟩ acc
      = ((collectRegionsList api source_id sheet_name pre acc).1, some e) := by
  have h2 : collectRegionsList api source_id sheet_name (pre ++ rd :: post) acc
      = ((collectRegionsList api source_id sheet_name pre acc).1, some e) := by
    rw [collectRegionsList_append api source_id sheet_name pre (rd :: post)
      acc hpre]
    simp [collectRegionsList, hfail]
  simp [collect_regions, collectSheets, h2]

/-- Witness for C6: the first region succeeds and stays registered, the
second fails, the third is never processed. -/
theorem collect_regions_partial_failure_witness :
    collect_regions
        (fun _ _ s _ => if s = "A1" then [["h"], ["v"]] else [])
        ⟨"S1", [⟨"Sheet1",
          [⟨"G", "A1", "B2", true, none⟩,
           ⟨"Bad", "E1", "F2", true, none⟩,
           ⟨"Never", "A1", "B2", true, none⟩]⟩]⟩ []
      = ([("G", Region.init "G" "Sheet1" "A1" "B2" ⟨["h"], [["v"]]⟩)],
         some .indexError) :=
  (collect_regions_partial_failure
    (fun _ _ s _ => if s = "A1" then [["h"], ["v"]] else [])
    "S1" "Sheet1" [⟨"G", "A1", "B2", true, none⟩]
    [⟨"Never", "A1", "B2", true, none⟩]
    ⟨"Bad", "E1", "F2", true, none⟩ [] .indexError rfl rfl).trans rfl

/-- C7: regions are keyed by bare `region["name"]`; when two subsheets of
one Source declare regions with the same name and both succeed, the
later-processed region overwrites the earlier one in the lookup mapping
(while its `full_name` stays subsheet-qualified). -/
theorem collect_regions_keyed_by_bare_name (api : Fetcher)
    (source_id p1 p2 n : String) (rd1 rd2 : RegionDescriptor)
    (r1 r2 : Region) (h1 : rd1.name = n) (h2 : rd2.name = n)
    (ho1 : processRegion api source_id p1 rd1 = .ok r1)
    (ho2 : processRegion api source_id p2 rd2 = .ok r2) :
    collect_regions api ⟨source_id, [⟨p1, [rd1]⟩, ⟨p2, [rd2]⟩]⟩ []
        = ([(n, r2)], none) ∧
      r2.region_name = n ∧ r2.full_name = p2 ++ "_" ++ n := by
  have hf := processRegion_ok_fields api source_id p2 rd2 r2 ho2
  refine ⟨?_, by rw [hf.1, h2], by rw [hf.2.2.1, h2]⟩
  simp [collect_regions, collectSheets, collectRegionsList, ho1, ho2, h1, h2,
    dictInsert]

/-- Witness for C7: two subsheets both declare a region named `R1`; only the
second subsheet's region survives in the mapping. -/
theorem collect_regions_keyed_by_bare_name_witness :
    collect_regions (fun _ _ _ _ => [["h"], ["1"]])
        ⟨"S1", [⟨"Sub1", [⟨"R1", "A1", "B2", true, none⟩]⟩,
                ⟨"Sub2", [⟨"R1", "A1", "B2", true, none⟩]⟩]⟩ []
      = ([("R1", Region.init "R1" "Sub2" "A1" "B2" ⟨["h"], [["1"]]⟩)],
         none) :=
  (collect_regions_keyed_by_bare_name (fun _ _ _ _ => [["h"], ["1"]])
    "S1" "Sub1" "Sub2" "R1"
    ⟨"R1", "A1", "B2", true, none⟩ ⟨"R1", "A1", "B2", true, none⟩
    (Region.init "R1" "Sub1" "A1" "B2" ⟨["h"], [["1"]]⟩)
    (Region.init "R1" "Sub2" "A1" "B2" ⟨["h"], [["1"]]⟩)
    rfl rfl rfl rfl).1

/-- C8 counterexample: with `contains_headers = false` and the `headers` key
absent, the failure is the `KeyError` from `region["headers"]` in
`collect_regions`, not the missing-headers check of `to_dataframe`
(`Exception("No passed table headers")`), which is never reached. -/
theorem processRegion_absent_headers_keyerror :
    processRegion (fun _ _ _ _ => [["1", "2"]]) "S1" "Sheet1"
        ⟨"R1", "A1", "B2", false, none⟩ = .error (.keyError "headers") ∧
      SheetError.keyError "headers" ≠ SheetError.noPassedTableHeaders :=
  ⟨rfl, by decide⟩

/-- C8 amended: with `contains_headers = false`, a present-but-empty
`headers` list makes `to_dataframe` raise the missing-headers error, while
an absent `headers` key makes the dictionary access raise `KeyError` before
`to_dataframe` runs; in both cases no `Region` is built or registered for
the descriptor. -/
theorem processRegion_missing_headers (api : Fetcher)
    (source_id sheet_name : String) (rd : RegionDescriptor)
    (rest : List RegionDescriptor) (acc : RegionMap)
    (hch : rd.contains_headers = false) :
    (rd.headers = some [] →
      processRegion api source_id sheet_name rd
          = .error .noPassedTableHeaders ∧
      collectRegionsList api source_id sheet_name (rd :: rest) acc
          = (acc, some .noPassedTableHeaders)) ∧
    (rd.headers = none →
      processRegion api source_id sheet_name rd
          = .error (.keyError "headers") ∧
      collectRegionsList api source_id sheet_name (rd :: rest) acc
          = (acc, some (.keyError "headers"))) := by
  constructor
  · intro hh
    have hp : processRegion api source_id sheet_name rd
        = .error .noPassedTableHeaders := by
      simp [processRegion, execute_sheets_call, hch, hh, to_dataframe,
        Except.map]
    exact ⟨hp, by simp [collectRegionsList, hp]⟩
  · intro hh
    have hp : processRegion api source_id sheet_name rd
        = .error (.keyError "headers") := by
      simp [processRegion, execute_sheets_call, hch, hh, Except.map]
    exact ⟨hp, by simp [collectRegionsList, hp]⟩

/-- Witness for C8 (amended) at a concrete empty-headers descriptor. -/
theorem processRegion_missing_headers_witness :
    processRegion (fun _ _ _ _ => [["1", "2"]]) "S1" "Sheet1"
        ⟨"R1", "A1", "B2", false, some []⟩
      = .error .noPassedTableHeaders :=
  ((processRegion_missing_headers (fun _ _ _ _ => [["1", "2"]]) "S1" "Sheet1"
    ⟨"R1", "A1", "B2", false, some []⟩ [] [] rfl).1 rfl).1

/-- C3 counterexample: a failure on the second configuration file aborts
`collect_files`, yet the first file's Source stays registered, so the call
is not transactional at the whole-call level (the registry keeps entries
for files of the failing call). -/
theorem collect_files_keeps_earlier_entries :
    collect_files (some (fun _ _ _ _ => []))
        [("f1", ⟨"S1", []⟩),
         ("f2", ⟨"S2", [⟨"Sheet1", [⟨"R1", "A1", "B2", true, none⟩]⟩]⟩)] []
      = ([("f1", ⟨⟨"S1", []⟩, []⟩)], some .indexError) ∧
      dictGet [("f1", (⟨⟨"S1", []⟩, []⟩ : Sheet))] "f1" ≠ none :=
  ⟨rfl, by decide⟩

theorem collectFilesGo_append (api : Fetcher) (l1 l2 : List (String × Config))
    (sd : SheetsData) (h : (collectFilesGo api l1 sd).2 = none) :
    collectFilesGo api (l1 ++ l2) sd
      = collectFilesGo api l2 (collectFilesGo api l1 sd).1 := by
  induction l1 generalizing sd with
  | nil => simp [collectFilesGo]
  | cons f fs ih =>
      obtain ⟨stem0, cfg0⟩ := f
      simp only [List.cons_append, collectFilesGo, Sheet.init] at h ⊢
      cases hcr : collect_regions api cfg0 [] with
      | mk m err =>
          cases err with
          | none =>
              simp only [hcr] at h ⊢
              exact ih _ h
          | some e0 =>
              simp only [hcr] at h
              exact absurd h (Option.some_ne_none e0)

/-- C3 amended: a failing file aborts `collect_files` and is itself never
registered, but the entries registered for the files processed earlier in
the same call remain in the registry (the call is per-file incremental,
not whole-call transactional). -/
theorem collect_files_failing_file_not_registered (api : Fetcher)
    (pre post : List (String × Config)) (stem : String) (cfg : Config)
    (sd : SheetsData) (e : SheetError)
    (hpre : (collect_files (some api) pre sd).2 = none)
    (hfail : (collect_regions api cfg []).2 = some e) :
    collect_files (some api) (pre ++ (stem, cfg) :: post) sd
      = ((collect_files (some api) pre sd).1, some e) := by
  obtain ⟨m, hm⟩ : ∃ m, collect_regions api cfg [] = (m, some e) :=
    ⟨(collect_regions api cfg []).1, by rw [← hfail]⟩
  show collectFilesGo api (pre ++ (stem, cfg) :: post) sd
    = ((collectFilesGo api pre sd).1, some e)
  rw [collectFilesGo_append api pre ((stem, cfg) :: post) sd hpre]
  simp [collectFilesGo, Sheet.init, hm]

/-- Witness for C3 (amended): file `f2` fails, `f1` stays registered, `f3`
is never processed. -/
theorem collect_files_failing_file_not_registered_witness :
    collect_files (some (fun _ _ _ _ => []))
        [("f1", ⟨"S1", []⟩),
         ("f2", ⟨"S2", [⟨"Sheet1", [⟨"R1", "A1", "B2", true, none⟩]⟩]⟩),
         ("f3", ⟨"S3", []⟩)] []
      = ([("f1", ⟨⟨"S1", []⟩, []⟩)], some .indexError) :=
  (collect_files_failing_file_not_registered (fun _ _ _ _ => [])
    [("f1", ⟨"S1", []⟩)] [("f3", ⟨"S3", []⟩)] "f2"
    ⟨"S2", [⟨"Sheet1", [⟨"R1", "A1", "B2", true, none⟩]⟩]⟩ []
    .indexError rfl rfl).trans rfl

/-- C9: serializing a constructed Region to the JSON format and reparsing
the produced document reproduces `region_name`, `full_name`
(`parent + "_" + name`), `start_range`, `end_range`, and every row's
column→value mapping, with the table keyed by row index; the file is named
`{full_name}.json`. -/
theorem region_to_json_round_trip
    (region_name parent start_range end_range : String) (df : DataFrame)
    (r : Region)
    (hr : r = Region.init region_name parent start_range end_range df) :
    (region_to_json r).1 = parent ++ "_" ++ region_name ++ ".json" ∧
      (region_to_json r).2.getField "region_name"
        = some (.str region_name) ∧
      (region_to_json r).2.getField "parent_name" = some (.str parent) ∧
      (region_to_json r).2.getField "full_name"
        = some (.str (parent ++ "_" ++ region_name)) ∧
      (region_to_json r).2.getField "start_range"
        = some (.str start_range) ∧
      (region_to_json r).2.getField "end_range" = some (.str end_range) ∧
      ∃ entries, (region_to_json r).2.getField "data"
          = some (.obj entries) ∧
        entries.length = df.rows.length ∧
        ∀ (i : Nat) (hi : i < df.rows.length),
          entries[i]? = some (toString i,
            Json.obj ((df.columns.zip df.rows[i]).map
              (fun q => (q.1, Json.str q.2)))) := by
  subst hr
  refine ⟨rfl, rfl, rfl, rfl, rfl, rfl, ?_⟩
  refine ⟨_, rfl, ?_, ?_⟩
  · simp [DataFrame.to_dict, Region.init, region_to_json]
  · intro i hi
    simp [region_to_json, Region.init, DataFrame.to_dict, List.getElem?_map,
      List.getElem?_enum, List.getElem?_eq_getElem hi]

/-- Witness for C9 at the spec's scenario region: the reparsed `full_name`
field is `Sheet1_R1`. -/
theorem region_to_json_round_trip_witness :
    (region_to_json (Region.init "R1" "Sheet1" "A1" "B2"
        ⟨["a", "b"], [["1", "2"], ["3", "4"]]⟩)).2.getField "full_name"
      = some (.str "Sheet1_R1") :=
  (region_to_json_round_trip "R1" "Sheet1" "A1" "B2"
    ⟨["a", "b"], [["1", "2"], ["3", "4"]]⟩ _ rfl).2.2.2.1

theorem collectFilesGo_frame (api : Fetcher)
    (files : List (String × Config)) :
    ∀ (sd : SheetsData) (k : String), (∀ f ∈ files, f.1 ≠ k) →
      dictGet (collectFilesGo api files sd).1 k = dictGet sd k ∧
        ∀ k2 : String, (dictGet sd k2).isSome →
          (dictGet (collectFilesGo api files sd).1 k2).isSome := by
  induction files with
  | nil =>
      intro sd k hk
      exact ⟨rfl, fun k2 h => h⟩
  | cons file rest ih =>
      intro sd k hk
      obtain ⟨stem0, cfg0⟩ := file
      have hstem : stem0 ≠ k := hk (stem0, cfg0) (List.mem_cons_self _ _)
      have hrest : ∀ f2 ∈ rest, f2.1 ≠ k :=
        fun f2 hf2 => hk f2 (List.mem_cons_of_mem _ hf2)
      simp only [collectFilesGo, Sheet.init]
      cases hcr : collect_regions api cfg0 [] with
      | mk m err =>
          cases err with
          | some e =>
              simp only [hcr]
              exact ⟨by simp, fun k2 h => h⟩
          | none =>
              simp only [hcr]
              have ih2 := ih (dictInsert sd stem0 ⟨cfg0, m⟩) k hrest
              refine ⟨?_, ?_⟩
              · rw [ih2.1, dictGet_dictInsert]
                simp [hstem]
              · intro k2 h
                exact ih2.2 k2 (dictGet_dictInsert_isSome _ _ _ _ h)

/-- C10: the source registry is never cleared: a `collect_files` call only
adds or replaces entries keyed by the stems of the files it processes, so
an entry under a key not re-discovered in the call is unchanged, and no
existing entry disappears (repeated calls accumulate sources). -/
theorem collect_files_registry_frame (api : Option Fetcher)
    (files : List (String × Config)) (sd : SheetsData) (k : String)
    (hk : ∀ f ∈ files, f.1 ≠ k) :
    dictGet (collect_files api files sd).1 k = dictGet sd k ∧
      ∀ k2 : String, (dictGet sd k2).isSome →
        (dictGet (collect_files api files sd).1 k2).isSome := by
  cases api with
  | none => exact ⟨rfl, fun k2 h => h⟩
  | some f => exact collectFilesGo_frame f files sd k hk

/-- Witness for C10: an entry registered by an earlier call survives a
later call that discovers a different file. -/
theorem collect_files_registry_frame_witness :
    dictGet (collect_files (some (fun _ _ _ _ => [])) [("f1", ⟨"S1", []⟩)]
        [("old", ⟨⟨"Old", []⟩, []⟩)]).1 "old"
      = dictGet [("old", (⟨⟨"Old", []⟩, []⟩ : Sheet))] "old" :=
  (collect_files_registry_frame (some (fun _ _ _ _ => []))
    [("f1", ⟨"S1", []⟩)] [("old", ⟨⟨"Old", []⟩, []⟩)] "old"
    (by decide)).1

end GridGopher
